import Mathlib

/-!
Shallow embedding of the ephemeral session store, the expiry reaper, the
websocket connection manager and the quick-poll handlers of
`server/main.py`.

Modelling conventions:
* Timestamps are natural numbers counting seconds.  The code works with
  UTC datetimes, but only comparisons and additions of fixed durations
  occur, so natural-number seconds are faithful.  Every operation
  receives the current time `now` explicitly (the code reads the wall
  clock inside each function).
* Python dicts with string keys become association lists; `alookup`,
  `aset` and `adel` implement indexing, assignment (replace in place or
  append, matching dict semantics) and `del`.
* The durable backend (redis) is a list of entries
  `key -> (record, native_expiry)`.  Modelled from the spec: the
  external key/value service supports native TTL expiry
  (`SET key value EX seconds`); a key whose native expiry has passed
  behaves as absent for `GET` and is not returned by `KEYS`.
  `redis_available` models the truthiness of `get_redis()`.
* JSON payload values are the inductive `Val`.
* Delivery over a websocket is modelled by a predicate `sendOk` giving,
  for the instant of a broadcast, whether `send_text` to a connection
  succeeds; the code's bare `except: pass` swallows a failure without
  touching any state.
* `tmp_dirs` records which per-session upload directories currently
  exist on disk (the side storage under `tmp_data/`).
-/

/-- SESSION_TTL_MINUTES = 20, expressed in seconds. -/
def SESSION_TTL : Nat := 20 * 60

/-- The 2-minute read grace period hardcoded in `get_session`. -/
def READ_GRACE : Nat := 2 * 60

/-- The 5-minute grace period hardcoded in `cleanup_expired_sessions`. -/
def REAP_GRACE : Nat := 5 * 60

/-- JSON-like values stored in a session's `data` dict. -/
inductive Val where
  | str : String → Val
  | nat : Nat → Val
  | bool : Bool → Val
  | list : List Val → Val
  | obj : List (String × Val) → Val

/-- Python dict indexing `d.get(k)` over an association list. -/
def alookup {α : Type} : List (String × α) → String → Option α
  | [], _ => none
  | kv :: rest, k => if kv.1 = k then some kv.2 else alookup rest k

/-- Python dict assignment `d[k] = v`: replace the existing entry in
place, otherwise append a new one. -/
def aset {α : Type} : List (String × α) → String → α → List (String × α)
  | [], k, v => [(k, v)]
  | kv :: rest, k, v => if kv.1 = k then (k, v) :: rest else kv :: aset rest k v

/-- Python dict deletion `del d[k]` / `d.pop(k, None)`. -/
def adel {α : Type} : List (String × α) → String → List (String × α)
  | [], _ => []
  | kv :: rest, k => if kv.1 = k then adel rest k else kv :: adel rest k

/-- Python `base.update(updates)`: field-wise override of `base` by
`updates`. -/
def dictUpdate (base updates : List (String × Val)) : List (String × Val) :=
  updates.foldl (fun acc kv => aset acc kv.1 kv.2) base

/-- Session type constants from class `SessionType`. -/
def SessionType.PHOTO_SHARE : String := "photo_share"

def SessionType.CHAT_ROOM : String := "chat_room"

def SessionType.WHITEBOARD : String := "whiteboard"

def SessionType.QUICK_POLL : String := "quick_poll"

/-- The `session_data` dict built in `create_session`: keys `type`,
`created_at`, `expires_at`, `data`. -/
structure SessionData where
  type : String
  created_at : Nat
  expires_at : Nat
  data : List (String × Val)

/-- The whole storage state of the process: redis availability
(truthiness of `get_redis()`), the redis keyspace with native expiries,
the `memory_storage` fallback dict, and the set of per-session upload
directories existing under `tmp_data/`. -/
structure Store where
  redis_available : Bool
  redis : List (String × (SessionData × Nat))
  memory_storage : List (String × SessionData)
  tmp_dirs : List String

/-- `create_session`: builds the record with
`expires_at = created_at + SESSION_TTL` and persists it — via
`redis.setex` (native TTL `SESSION_TTL`) when redis is available,
otherwise into `memory_storage`.  The fresh uuid is passed in as
`session_id`. -/
def create_session (st : Store) (now : Nat) (session_id : String)
    (session_type : String) (data : List (String × Val)) : Store :=
  let sd : SessionData :=
    { type := session_type, created_at := now, expires_at := now + SESSION_TTL, data := data }
  if st.redis_available then
    { st with redis := aset st.redis session_id (sd, now + SESSION_TTL) }
  else
    { st with memory_storage := aset st.memory_storage session_id sd }

/-- The `memory_storage` half of `get_session` (lines 163-172): look the
id up, and if the entry is past `expires_at` plus the 2-minute grace
period, delete it from `memory_storage` and return absent.  Returns the
result together with the possibly mutated store. -/
def get_mem (st : Store) (now : Nat) (session_id : String) :
    Option SessionData × Store :=
  match alookup st.memory_storage session_id with
  | some sd =>
    if sd.expires_at + READ_GRACE < now then
      (none, { st with memory_storage := adel st.memory_storage session_id })
    else (some sd, st)
  | none => (none, st)

/-- `get_session`: when redis is available, `redis.get` first (a key
whose native expiry has passed yields nil and the code falls through to
`memory_storage`); a record found in redis past `expires_at` plus the
2-minute grace period yields `None` directly.  Otherwise the
`memory_storage` path runs.  The python comparison
`now > expires_at + grace_period` is `expires_at + READ_GRACE < now`. -/
def get_session (st : Store) (now : Nat) (session_id : String) :
    Option SessionData × Store :=
  if st.redis_available then
    match alookup st.redis session_id with
    | some (sd, native_expiry) =>
      if native_expiry ≤ now then get_mem st now session_id
      else if sd.expires_at + READ_GRACE < now then (none, st)
      else (some sd, st)
    | none => get_mem st now session_id
  else get_mem st now session_id

/-- `update_session`: read via `get_session`; if present, merge `data`
into the payload dict, re-persist via `redis.setex` (which resets the
native TTL to `now + SESSION_TTL` while leaving the `expires_at` field
untouched) when redis is available, and always write the merged record
back to `memory_storage` ("always do this as backup").  If absent,
nothing is written. -/
def update_session (st : Store) (now : Nat) (session_id : String)
    (data : List (String × Val)) : Store :=
  match get_session st now session_id with
  | (some sd, st1) =>
    let sd2 : SessionData := { sd with data := dictUpdate sd.data data }
    let st2 :=
      if st1.redis_available then
        { st1 with redis := aset st1.redis session_id (sd2, now + SESSION_TTL) }
      else st1
    { st2 with memory_storage := aset st2.memory_storage session_id sd2 }
  | (none, st1) => st1

/-- `delete_session`: `redis.delete` (when available), then
`memory_storage.pop(session_id, None)` unconditionally, and only then
`get_session` to decide whether a photo-share upload directory must be
removed (`shutil.rmtree` guarded by `os.path.exists`). -/
def delete_session (st : Store) (now : Nat) (session_id : String) : Store :=
  let st1 :=
    if st.redis_available then { st with redis := adel st.redis session_id } else st
  let st2 := { st1 with memory_storage := adel st1.memory_storage session_id }
  match get_session st2 now session_id with
  | (some sd, st3) =>
    if sd.type = SessionType.PHOTO_SHARE then
      if session_id ∈ st3.tmp_dirs then
        { st3 with tmp_dirs := st3.tmp_dirs.filter (fun d => ¬ d = session_id) }
      else st3
    else st3
  | (none, st3) => st3

/-- One redis key inside the reaper's loop: `redis.get(key)` (nil once
the native expiry has passed), then delete when
`expires_at < cutoff_time` where `cutoff_time = now - 5 minutes`; over
the integers that comparison is `expires_at + REAP_GRACE < now`. -/
def reap_redis_key (st : Store) (now : Nat) (key : String) : Store :=
  match alookup st.redis key with
  | some (sd, native_expiry) =>
    if native_expiry ≤ now then st
    else if sd.expires_at + REAP_GRACE < now then delete_session st now key
    else st
  | none => st

/-- One cycle of the `cleanup_expired_sessions` background loop.  With
redis available it snapshots `redis.keys("session:*")` (only natively
live keys) and processes each; otherwise it collects the
`memory_storage` ids with `expires_at < now - 5 minutes` and deletes
them via `delete_session`. -/
def cleanup_cycle (st : Store) (now : Nat) : Store :=
  if st.redis_available then
    let keys := (st.redis.filter (fun e => now < e.2.2)).map (fun e => e.1)
    keys.foldl (fun acc key => reap_redis_key acc now key) st
  else
    let expired :=
      (st.memory_storage.filter (fun e => e.2.expires_at + REAP_GRACE < now)).map
        (fun e => e.1)
    expired.foldl (fun acc key => delete_session acc now key) st

/-- What the backends currently hold for `session_id` at time `now`:
the redis entry when redis is available and the key is natively live,
with fall-through to `memory_storage` exactly as `get_session` falls
through — but without the grace-period filtering.  Note that this
notion honors the redis native TTL: because `create_session` calls
`setex` with exactly `SESSION_TTL` seconds, a redis-created,
never-updated record stops being stored at `expires_at` itself, so the
read grace period has no effect on such records (see the C2
counterexample); it matters only for `memory_storage` entries and for
redis entries whose native TTL was re-extended by `update_session`. -/
def storedAt (st : Store) (now : Nat) (session_id : String) : Option SessionData :=
  if st.redis_available then
    match alookup st.redis session_id with
    | some (sd, native_expiry) =>
      if native_expiry ≤ now then alookup st.memory_storage session_id
      else some sd
    | none => alookup st.memory_storage session_id
  else alookup st.memory_storage session_id

/-- Python `list.remove(y)`: drop the first occurrence of `y` (a call
with `y` absent raises `ValueError`, leaving the list unchanged; the
model keeps the unchanged list in that case). -/
def removeFirst {C : Type} [DecidableEq C] : List C → C → List C
  | [], _ => []
  | x :: rest, y => if x = y then rest else x :: removeFirst rest y

/-- `ConnectionManager`: `active_connections` maps a session id to the
ordered list of live websocket connections. -/
structure ConnectionManager (C : Type) where
  active_connections : List (String × List C)

/-- `ConnectionManager.connect`: create the entry with an empty list if
the id is unknown, then append the websocket. -/
def ConnectionManager.connect {C : Type} (m : ConnectionManager C)
    (websocket : C) (session_id : String) : ConnectionManager C :=
  let cur := (alookup m.active_connections session_id).getD []
  ⟨aset m.active_connections session_id (cur ++ [websocket])⟩

/-- `ConnectionManager.disconnect`: if the id has an entry, remove the
websocket from its list (`list.remove`; if the websocket is absent the
call raises and the state is unchanged) and delete the entry when the
list becomes empty. -/
def ConnectionManager.disconnect {C : Type} [DecidableEq C]
    (m : ConnectionManager C) (websocket : C) (session_id : String) :
    ConnectionManager C :=
  match alookup m.active_connections session_id with
  | none => m
  | some conns =>
    if websocket ∈ conns then
      let conns2 := removeFirst conns websocket
      if conns2 = [] then ⟨adel m.active_connections session_id⟩
      else ⟨aset m.active_connections session_id conns2⟩
    else m

/-- `ConnectionManager.send_to_session`: if the id has an entry, attempt
`send_text(json.dumps(message))` once on every connection in order;
`sendOk c` tells whether the attempt on `c` succeeds, and a failure is
swallowed by the bare `except: pass` without mutating anything.  The
result lists every attempt as `(connection, succeeded)`, paired with the
(unchanged) manager. -/
def ConnectionManager.send_to_session {C : Type} (sendOk : C → Bool)
    (m : ConnectionManager C) (message : Val) (session_id : String) :
    List (C × Bool) × ConnectionManager C :=
  match alookup m.active_connections session_id with
  | some conns => (conns.map (fun c => (c, sendOk c)), m)
  | none => ([], m)

/-- No session id in `active_connections` maps to an empty connection
list. -/
def ConnectionManager.no_empty_sets {C : Type} (m : ConnectionManager C) : Prop :=
  ∀ session_id conns,
    alookup m.active_connections session_id = some conns → conns ≠ []

/-- The typed view of a quick-poll payload, as the handlers read it:
`data["questions"]`, `data["min_responses"]`, `data["responses"]`,
`data["results_shown"]`. -/
structure PollData where
  questions : List Val
  min_responses : Nat
  responses : List Val
  results_shown : Bool

/-- Reads the four quick-poll fields out of the payload dict; `none`
models the exception (HTTP 500) the handler would hit on a payload not
shaped like the one `create_quick_poll` stores. -/
def decodePoll (data : List (String × Val)) : Option PollData :=
  match alookup data "questions", alookup data "min_responses",
      alookup data "responses", alookup data "results_shown" with
  | some (Val.list qs), some (Val.nat m), some (Val.list rs), some (Val.bool b) =>
    some { questions := qs, min_responses := m, responses := rs, results_shown := b }
  | _, _, _, _ => none

/-- The response entry appended by `submit_poll_response`: a dict with a
fresh uuid `rid`, the submitted answers and a timestamp. -/
def pollEntry (rid : String) (responses : List String) (now : Nat) : Val :=
  Val.obj [("id", Val.str rid), ("responses", Val.list (responses.map Val.str)),
    ("timestamp", Val.nat now)]

/-- `submit_poll_response`: 404 when the session is absent or not a
quick poll, 400 when results were already shown or the answer count
differs from the question count; otherwise append the response entry,
recompute `results_shown = len(responses) >= min_responses` and persist
both fields via `update_session`.  Returns the HTTP outcome (the ok
payload is `(response_count, results_shown, min_responses)`) together
with the store after the request. -/
def submit_poll_response (st : Store) (now : Nat) (rid : String)
    (session_id : String) (responses : List String) :
    Except (Nat × String) (Nat × Bool × Nat) × Store :=
  match get_session st now session_id with
  | (none, st1) => (Except.error (404, "Session not found or expired"), st1)
  | (some sd, st1) =>
    if ¬ sd.type = SessionType.QUICK_POLL then
      (Except.error (404, "Session not found or expired"), st1)
    else
      match decodePoll sd.data with
      | none => (Except.error (500, "internal error"), st1)
      | some p =>
        if p.results_shown then
          (Except.error (400, "Poll results have already been shown"), st1)
        else if ¬ responses.length = p.questions.length then
          (Except.error (400, "Number of responses must match number of questions"), st1)
        else
          let poll_responses := p.responses ++ [pollEntry rid responses now]
          let results_shown : Bool := decide (p.min_responses ≤ poll_responses.length)
          let st2 := update_session st1 now session_id
            [("responses", Val.list poll_responses), ("results_shown", Val.bool results_shown)]
          (Except.ok (poll_responses.length, results_shown, p.min_responses), st2)

/-- `get_poll_results`: 404 when the session is absent or not a quick
poll, 400 while `results_shown` is false, otherwise the questions and
responses. -/
def get_poll_results (st : Store) (now : Nat) (session_id : String) :
    Except (Nat × String) (List Val × List Val) × Store :=
  match get_session st now session_id with
  | (none, st1) => (Except.error (404, "Session not found or expired"), st1)
  | (some sd, st1) =>
    if ¬ sd.type = SessionType.QUICK_POLL then
      (Except.error (404, "Session not found or expired"), st1)
    else
      match decodePoll sd.data with
      | none => (Except.error (500, "internal error"), st1)
      | some p =>
        if ¬ p.results_shown then
          (Except.error (400, "Results not yet available"), st1)
        else (Except.ok (p.questions, p.responses), st1)

/-! Concrete fixtures used by witness and counterexample theorems. -/

/-- A photo-share record whose upload directory exists on disk. -/
def sdC1 : SessionData :=
  { type := SessionType.PHOTO_SHARE, created_at := 0, expires_at := SESSION_TTL,
    data := [("files", Val.list [Val.str "img_1.jpg"])] }

def stC1 : Store :=
  { redis_available := false, redis := [], memory_storage := [("f", sdC1)],
    tmp_dirs := ["f"] }

/-- An empty store with redis available, and the store after creating
a chat-room session `r` into it at time 0: redis holds the record with
`expires_at = SESSION_TTL` and native TTL expiring at `SESSION_TTL`. -/
def stC2r : Store :=
  { redis_available := true, redis := [], memory_storage := [], tmp_dirs := [] }

def stC2 : Store := create_session stC2r 0 "r" SessionType.CHAT_ROOM []

/-- A manager with two live connections on session `s`. -/
def mgrC3 : ConnectionManager Nat := ⟨[("s", [1, 2])]⟩

/-- Delivery outcome where sending to connection 1 fails. -/
def sendOkC3 : Nat → Bool := fun c => decide (¬ c = 1)

/-- A live chat-room record. -/
def sdC4 : SessionData :=
  { type := SessionType.CHAT_ROOM, created_at := 0, expires_at := SESSION_TTL,
    data := [("name", Val.str "Team")] }

def stC4 : Store :=
  { redis_available := false, redis := [], memory_storage := [("s", sdC4)], tmp_dirs := [] }

/-- A record expired past the read grace period. -/
def sdC5 : SessionData :=
  { type := SessionType.CHAT_ROOM, created_at := 0, expires_at := 100, data := [] }

def stC5 : Store :=
  { redis_available := false, redis := [], memory_storage := [("s", sdC5)], tmp_dirs := [] }

/-- A record living only in `memory_storage` while redis is available. -/
def sdC6 : SessionData :=
  { type := SessionType.CHAT_ROOM, created_at := 0, expires_at := 0, data := [] }

def stC6 : Store :=
  { redis_available := true, redis := [], memory_storage := [("s", sdC6)], tmp_dirs := [] }

/-- A reapable in-memory record with redis unavailable. -/
def sdC6a : SessionData :=
  { type := SessionType.WHITEBOARD, created_at := 0, expires_at := 0, data := [] }

def stC6w : Store :=
  { redis_available := false, redis := [], memory_storage := [("a", sdC6a)], tmp_dirs := [] }

/-- An expired in-memory record observed by a late `get_session`. -/
def sdC7 : SessionData :=
  { type := SessionType.WHITEBOARD, created_at := 0, expires_at := 100, data := [] }

def stC7 : Store :=
  { redis_available := false, redis := [], memory_storage := [("w", sdC7)], tmp_dirs := [] }

/-- A manager with one live connection on session `s`. -/
def mgrC9 : ConnectionManager Nat := ⟨[("s", [1])]⟩

/-- The payload stored by `create_quick_poll` for one question and
`min_responses = 1`. -/
def pollPayloadC10 : List (String × Val) :=
  [("questions", Val.list [Val.str "Q1"]), ("min_responses", Val.nat 1),
    ("responses", Val.list []), ("results_shown", Val.bool false)]

def sdC10 : SessionData :=
  { type := SessionType.QUICK_POLL, created_at := 0, expires_at := SESSION_TTL,
    data := pollPayloadC10 }

def stC10 : Store :=
  { redis_available := false, redis := [], memory_storage := [("p", sdC10)], tmp_dirs := [] }

def pC10 : PollData :=
  { questions := [Val.str "Q1"], min_responses := 1, responses := [], results_shown := false }

/-- The update payload `submit_poll_response` hands to `update_session`
on a successful submit. -/
def pollAfter (p : PollData) (rid : String) (responses : List String) (now : Nat) :
    List (String × Val) :=
  [("responses", Val.list (p.responses ++ [pollEntry rid responses now])),
    ("results_shown",
      Val.bool (decide (p.min_responses ≤ (p.responses ++ [pollEntry rid responses now]).length)))]

/-! Association-list lemmas. -/

theorem alookup_aset_self {α : Type} (l : List (String × α)) (k : String) (v : α) :
    alookup (aset l k v) k = some v := by
  induction l with
  | nil => simp [aset, alookup]
  | cons kv rest ih =>
    by_cases h : kv.1 = k
    · simp [aset, alookup, h]
    · simp [aset, alookup, h, ih]

theorem alookup_aset_ne {α : Type} (l : List (String × α)) (k k2 : String) (v : α)
    (h : ¬ k = k2) : alookup (aset l k v) k2 = alookup l k2 := by
  induction l with
  | nil => simp [aset, alookup, h]
  | cons kv rest ih =>
    by_cases h2 : kv.1 = k
    · simp [aset, alookup, h2, h]
    · simp [aset, alookup, h2, ih]

theorem alookup_adel_self {α : Type} (l : List (String × α)) (k : String) :
    alookup (adel l k) k = none := by
  induction l with
  | nil => simp [adel, alookup]
  | cons kv rest ih =>
    by_cases h : kv.1 = k
    · simp [adel, alookup, h, ih]
    · simp [adel, alookup, h, ih]

theorem alookup_adel_ne {α : Type} (l : List (String × α)) (k k2 : String)
    (h : ¬ k = k2) : alookup (adel l k) k2 = alookup l k2 := by
  induction l with
  | nil => simp [adel, alookup]
  | cons kv rest ih =>
    by_cases h2 : kv.1 = k
    · simp [adel, alookup, h2, h, ih]
    · simp [adel, alookup, h2, ih]

theorem mem_of_alookup {α : Type} {l : List (String × α)} {k : String} {v : α}
    (h : alookup l k = some v) : (k, v) ∈ l := by
  induction l with
  | nil => simp [alookup] at h
  | cons kv rest ih =>
    obtain ⟨k1, v1⟩ := kv
    by_cases h2 : k1 = k
    · subst h2
      simp [alookup] at h
      subst h
      exact List.mem_cons_self _ _
    · simp [alookup, h2] at h
      exact List.mem_cons_of_mem _ (ih h)

theorem alookup_eq_none_iff {α : Type} {l : List (String × α)} {k : String} :
    alookup l k = none ↔ ¬ k ∈ l.map Prod.fst := by
  induction l with
  | nil => simp [alookup]
  | cons kv rest ih =>
    obtain ⟨k1, v1⟩ := kv
    by_cases h2 : k1 = k
    · subst h2
      simp [alookup]
    · simp [alookup, h2, ih, Ne.symm h2]

theorem alookup_of_mem_nodup {α : Type} {l : List (String × α)} {k : String} {v : α}
    (hnd : (l.map Prod.fst).Nodup) (hm : (k, v) ∈ l) : alookup l k = some v := by
  induction l with
  | nil => simp at hm
  | cons kv rest ih =>
    obtain ⟨k1, v1⟩ := kv
    simp only [List.map_cons, List.nodup_cons] at hnd
    rcases List.mem_cons.mp hm with h | h
    · obtain ⟨hk, hv⟩ := Prod.mk.injEq .. ▸ h
      subst hk
      subst hv
      simp [alookup]
    · have hk : ¬ k1 = k := by
        rintro rfl
        exact hnd.1 (List.mem_map.mpr ⟨(k1, v), h, rfl⟩)
      simp [alookup, hk, ih hnd.2 h]

/-! Reduction lemmas for `get_mem` and `get_session`. -/

theorem get_mem_of_none {st : Store} {now : Nat} {id : String}
    (hm : alookup st.memory_storage id = none) : get_mem st now id = (none, st) := by
  simp [get_mem, hm]

theorem get_mem_of_live {st : Store} {now : Nat} {id : String} {sd : SessionData}
    (hm : alookup st.memory_storage id = some sd)
    (hg : ¬ sd.expires_at + READ_GRACE < now) : get_mem st now id = (some sd, st) := by
  simp [get_mem, hm, hg]

theorem get_mem_of_expired {st : Store} {now : Nat} {id : String} {sd : SessionData}
    (hm : alookup st.memory_storage id = some sd)
    (hg : sd.expires_at + READ_GRACE < now) :
    get_mem st now id = (none, { st with memory_storage := adel st.memory_storage id }) := by
  simp [get_mem, hm, hg]

theorem get_session_no_redis {st : Store} {now : Nat} {id : String}
    (hr : st.redis_available = false) : get_session st now id = get_mem st now id := by
  simp [get_session, hr]

theorem get_session_redis_miss {st : Store} {now : Nat} {id : String}
    (hr : st.redis_available = true) (hl : alookup st.redis id = none) :
    get_session st now id = get_mem st now id := by
  simp [get_session, hr, hl]

theorem get_session_redis_dead {st : Store} {now : Nat} {id : String}
    {sd : SessionData} {ne : Nat} (hr : st.redis_available = true)
    (hl : alookup st.redis id = some (sd, ne)) (hn : ne ≤ now) :
    get_session st now id = get_mem st now id := by
  simp [get_session, hr, hl, hn]

theorem get_session_redis_grace_fail {st : Store} {now : Nat} {id : String}
    {sd : SessionData} {ne : Nat} (hr : st.redis_available = true)
    (hl : alookup st.redis id = some (sd, ne)) (hn : ¬ ne ≤ now)
    (hg : sd.expires_at + READ_GRACE < now) : get_session st now id = (none, st) := by
  simp [get_session, hr, hl, hn, hg]

theorem get_session_redis_hit {st : Store} {now : Nat} {id : String}
    {sd : SessionData} {ne : Nat} (hr : st.redis_available = true)
    (hl : alookup st.redis id = some (sd, ne)) (hn : ¬ ne ≤ now)
    (hg : ¬ sd.expires_at + READ_GRACE < now) : get_session st now id = (some sd, st) := by
  simp [get_session, hr, hl, hn, hg]

theorem get_mem_fst_some {st : Store} {now : Nat} {id : String} {sd : SessionData}
    (h : (get_mem st now id).1 = some sd) :
    alookup st.memory_storage id = some sd ∧ ¬ sd.expires_at + READ_GRACE < now := by
  cases hm : alookup st.memory_storage id with
  | none => rw [get_mem_of_none hm] at h; simp at h
  | some sd2 =>
    by_cases hg : sd2.expires_at + READ_GRACE < now
    · rw [get_mem_of_expired hm hg] at h; simp at h
    · rw [get_mem_of_live hm hg] at h
      have h2 : sd2 = sd := by simpa using h
      subst h2
      exact ⟨rfl, hg⟩

theorem get_session_some_state {st : Store} {now : Nat} {id : String} {sd : SessionData}
    (h : (get_session st now id).1 = some sd) : (get_session st now id).2 = st := by
  by_cases hr : st.redis_available
  · cases hl : alookup st.redis id with
    | some p =>
      obtain ⟨sd1, ne⟩ := p
      by_cases hn : ne ≤ now
      · rw [get_session_redis_dead hr hl hn] at h ⊢
        obtain ⟨hm, hg⟩ := get_mem_fst_some h
        rw [get_mem_of_live hm hg]
      · by_cases hg : sd1.expires_at + READ_GRACE < now
        · rw [get_session_redis_grace_fail hr hl hn hg] at h; simp at h
        · rw [get_session_redis_hit hr hl hn hg]
    | none =>
      rw [get_session_redis_miss hr hl] at h ⊢
      obtain ⟨hm, hg⟩ := get_mem_fst_some h
      rw [get_mem_of_live hm hg]
  · rw [get_session_no_redis (by simpa using hr)] at h ⊢
    obtain ⟨hm, hg⟩ := get_mem_fst_some h
    rw [get_mem_of_live hm hg]

theorem get_session_some_grace {st : Store} {now : Nat} {id : String} {sd : SessionData}
    (h : (get_session st now id).1 = some sd) : ¬ sd.expires_at + READ_GRACE < now := by
  by_cases hr : st.redis_available
  · cases hl : alookup st.redis id with
    | some p =>
      obtain ⟨sd1, ne⟩ := p
      by_cases hn : ne ≤ now
      · rw [get_session_redis_dead hr hl hn] at h
        exact (get_mem_fst_some h).2
      · by_cases hg : sd1.expires_at + READ_GRACE < now
        · rw [get_session_redis_grace_fail hr hl hn hg] at h; simp at h
        · rw [get_session_redis_hit hr hl hn hg] at h
          simp at h
          subst h
          exact hg
    | none =>
      rw [get_session_redis_miss hr hl] at h
      exact (get_mem_fst_some h).2
  · rw [get_session_no_redis (by simpa using hr)] at h
    exact (get_mem_fst_some h).2

theorem get_mem_fst_iff {st : Store} {now : Nat} {id : String} {sd : SessionData} :
    (get_mem st now id).1 = some sd ↔
      alookup st.memory_storage id = some sd ∧ now ≤ sd.expires_at + READ_GRACE := by
  cases hm : alookup st.memory_storage id with
  | none => rw [get_mem_of_none hm]; simp
  | some sd2 =>
    by_cases hg : sd2.expires_at + READ_GRACE < now
    · rw [get_mem_of_expired hm hg]
      simp only [Prod.fst]
      constructor
      · intro h; simp at h
      · rintro ⟨h1, h2⟩
        injection h1 with h1
        subst h1
        exact absurd hg (Nat.not_lt.mpr h2)
    · rw [get_mem_of_live hm hg]
      simp only [Prod.fst]
      constructor
      · intro h
        injection h with h
        subst h
        exact ⟨rfl, Nat.not_lt.mp hg⟩
      · rintro ⟨h1, h2⟩
        injection h1 with h1
        subst h1
        rfl

theorem get_session_fst_iff {st : Store} {now : Nat} {id : String} {sd : SessionData} :
    (get_session st now id).1 = some sd ↔
      storedAt st now id = some sd ∧ now ≤ sd.expires_at + READ_GRACE := by
  by_cases hr : st.redis_available
  · cases hl : alookup st.redis id with
    | some p =>
      obtain ⟨sd1, ne⟩ := p
      by_cases hn : ne ≤ now
      · rw [get_session_redis_dead hr hl hn]
        simp only [storedAt, hr, if_true, hl, hn]
        exact get_mem_fst_iff
      · simp only [storedAt, hr, if_true, hl, hn, if_false]
        by_cases hg : sd1.expires_at + READ_GRACE < now
        · rw [get_session_redis_grace_fail hr hl hn hg]
          simp only [Prod.fst]
          constructor
          · intro h; simp at h
          · rintro ⟨h1, h2⟩
            injection h1 with h1
            subst h1
            exact absurd hg (Nat.not_lt.mpr h2)
        · rw [get_session_redis_hit hr hl hn hg]
          simp only [Prod.fst]
          constructor
          · intro h
            injection h with h
            subst h
            exact ⟨rfl, Nat.not_lt.mp hg⟩
          · rintro ⟨h1, h2⟩
            injection h1 with h1
            subst h1
            rfl
    | none =>
      rw [get_session_redis_miss hr hl]
      simp only [storedAt, hr, if_true, hl]
      exact get_mem_fst_iff
  · have hrf : st.redis_available = false := by simpa using hr
    rw [get_session_no_redis hrf]
    simp only [storedAt, hrf, Bool.false_eq_true, if_false]
    exact get_mem_fst_iff

/-! Lemmas about `update_session` and `delete_session`. -/

theorem get_session_fst_of_hit {st : Store} {now : Nat} {id : String}
    {sd : SessionData} {ne : Nat} (hr : st.redis_available = true)
    (hl : alookup st.redis id = some (sd, ne)) (hn : ¬ ne ≤ now)
    (hg : ¬ sd.expires_at + READ_GRACE < now) :
    (get_session st now id).1 = some sd := by
  rw [get_session_redis_hit hr hl hn hg]

theorem get_session_fst_of_mem {st : Store} {now : Nat} {id : String}
    {sd : SessionData} (hr : st.redis_available = false)
    (hm : alookup st.memory_storage id = some sd)
    (hg : ¬ sd.expires_at + READ_GRACE < now) :
    (get_session st now id).1 = some sd := by
  rw [get_session_no_redis hr, get_mem_of_live hm hg]

theorem update_session_some {st : Store} {now : Nat} {id : String}
    {d : List (String × Val)} {sd : SessionData}
    (h : (get_session st now id).1 = some sd) :
    (get_session (update_session st now id d) now id).1 =
      some { sd with data := dictUpdate sd.data d } := by
  have hst : (get_session st now id).2 = st := get_session_some_state h
  have hg : ¬ sd.expires_at + READ_GRACE < now := get_session_some_grace h
  have hpair : get_session st now id = (some sd, st) := Prod.ext h hst
  have httl : ¬ now + SESSION_TTL ≤ now := by simp [SESSION_TTL]
  by_cases hr : st.redis_available
  · have hu : update_session st now id d =
        { st with
          redis := aset st.redis id
            ({ sd with data := dictUpdate sd.data d }, now + SESSION_TTL),
          memory_storage :=
            aset st.memory_storage id { sd with data := dictUpdate sd.data d } } := by
      simp [update_session, hpair, hr]
    rw [hu]
    exact get_session_fst_of_hit hr (alookup_aset_self _ _ _) httl hg
  · have hrf : st.redis_available = false := by simpa using hr
    have hu : update_session st now id d =
        { st with
          memory_storage :=
            aset st.memory_storage id { sd with data := dictUpdate sd.data d } } := by
      simp [update_session, hpair, hrf]
    rw [hu]
    exact get_session_fst_of_mem hrf (alookup_aset_self _ _ _) hg

theorem update_session_none {st : Store} {now : Nat} {id : String}
    {d : List (String × Val)} (h : (get_session st now id).1 = none) :
    update_session st now id d = (get_session st now id).2 := by
  cases hp : get_session st now id with
  | mk r s1 =>
    rw [hp] at h
    simp at h
    subst h
    simp [update_session, hp]

theorem delete_session_eq (st : Store) (now : Nat) (id : String) :
    delete_session st now id =
      { st with
        redis := if st.redis_available then adel st.redis id else st.redis,
        memory_storage := adel st.memory_storage id } := by
  by_cases hr : st.redis_available <;>
    simp [delete_session, get_session, get_mem, hr, alookup_adel_self]

theorem delete_session_avail (st : Store) (now : Nat) (id : String) :
    (delete_session st now id).redis_available = st.redis_available := by
  rw [delete_session_eq]

theorem delete_session_tmp_dirs (st : Store) (now : Nat) (id : String) :
    (delete_session st now id).tmp_dirs = st.tmp_dirs := by
  rw [delete_session_eq]

theorem delete_session_mem_self (st : Store) (now : Nat) (id : String) :
    alookup (delete_session st now id).memory_storage id = none := by
  rw [delete_session_eq]
  exact alookup_adel_self _ _

theorem delete_session_mem_ne (st : Store) (now : Nat) {id k2 : String}
    (h : ¬ id = k2) :
    alookup (delete_session st now id).memory_storage k2 =
      alookup st.memory_storage k2 := by
  rw [delete_session_eq]
  exact alookup_adel_ne _ _ _ h

theorem delete_session_redis_self (st : Store) (now : Nat) (id : String) :
    alookup (delete_session st now id).redis id =
      if st.redis_available then none else alookup st.redis id := by
  rw [delete_session_eq]
  by_cases hr : st.redis_available <;> simp [hr, alookup_adel_self]

theorem delete_session_redis_ne (st : Store) (now : Nat) {id k2 : String}
    (h : ¬ id = k2) :
    alookup (delete_session st now id).redis k2 = alookup st.redis k2 := by
  rw [delete_session_eq]
  by_cases hr : st.redis_available <;> simp [hr, alookup_adel_ne _ _ _ h]

/-! Lemmas about `reap_redis_key` and the two reap folds. -/

theorem reap_redis_key_miss {st : Store} {now : Nat} {k : String}
    (hl : alookup st.redis k = none) : reap_redis_key st now k = st := by
  simp [reap_redis_key, hl]

theorem reap_redis_key_dead {st : Store} {now : Nat} {k : String}
    {sd : SessionData} {ne : Nat} (hl : alookup st.redis k = some (sd, ne))
    (hn : ne ≤ now) : reap_redis_key st now k = st := by
  simp [reap_redis_key, hl, hn]

theorem reap_redis_key_del {st : Store} {now : Nat} {k : String}
    {sd : SessionData} {ne : Nat} (hl : alookup st.redis k = some (sd, ne))
    (hn : ¬ ne ≤ now) (hc : sd.expires_at + REAP_GRACE < now) :
    reap_redis_key st now k = delete_session st now k := by
  simp [reap_redis_key, hl, hn, hc]

theorem reap_redis_key_keep {st : Store} {now : Nat} {k : String}
    {sd : SessionData} {ne : Nat} (hl : alookup st.redis k = some (sd, ne))
    (hn : ¬ ne ≤ now) (hc : ¬ sd.expires_at + REAP_GRACE < now) :
    reap_redis_key st now k = st := by
  simp [reap_redis_key, hl, hn, hc]

theorem reap_redis_key_avail (st : Store) (now : Nat) (k : String) :
    (reap_redis_key st now k).redis_available = st.redis_available := by
  cases hl : alookup st.redis k with
  | none => rw [reap_redis_key_miss hl]
  | some p =>
    obtain ⟨sd, ne⟩ := p
    by_cases hn : ne ≤ now
    · rw [reap_redis_key_dead hl hn]
    · by_cases hc : sd.expires_at + REAP_GRACE < now
      · rw [reap_redis_key_del hl hn hc, delete_session_avail]
      · rw [reap_redis_key_keep hl hn hc]

theorem reap_redis_key_other_redis (st : Store) (now : Nat) {k k2 : String}
    (h : ¬ k = k2) :
    alookup (reap_redis_key st now k).redis k2 = alookup st.redis k2 := by
  cases hl : alookup st.redis k with
  | none => rw [reap_redis_key_miss hl]
  | some p =>
    obtain ⟨sd, ne⟩ := p
    by_cases hn : ne ≤ now
    · rw [reap_redis_key_dead hl hn]
    · by_cases hc : sd.expires_at + REAP_GRACE < now
      · rw [reap_redis_key_del hl hn hc, delete_session_redis_ne _ _ h]
      · rw [reap_redis_key_keep hl hn hc]

theorem reap_redis_key_other_mem (st : Store) (now : Nat) {k k2 : String}
    (h : ¬ k = k2) :
    alookup (reap_redis_key st now k).memory_storage k2 =
      alookup st.memory_storage k2 := by
  cases hl : alookup st.redis k with
  | none => rw [reap_redis_key_miss hl]
  | some p =>
    obtain ⟨sd, ne⟩ := p
    by_cases hn : ne ≤ now
    · rw [reap_redis_key_dead hl hn]
    · by_cases hc : sd.expires_at + REAP_GRACE < now
      · rw [reap_redis_key_del hl hn hc, delete_session_mem_ne _ _ h]
      · rw [reap_redis_key_keep hl hn hc]

theorem foldReap_not_mem (now : Nat) (L : List String) :
    ∀ (st : Store) (id : String), ¬ id ∈ L →
      alookup ((L.foldl (fun acc key => reap_redis_key acc now key) st)).redis id =
          alookup st.redis id ∧
        alookup ((L.foldl (fun acc key => reap_redis_key acc now key) st)).memory_storage id =
          alookup st.memory_storage id := by
  induction L with
  | nil => intro st id _; exact ⟨rfl, rfl⟩
  | cons k L2 ih =>
    intro st id hnm
    have hk : ¬ k = id := fun h => hnm (h ▸ List.mem_cons_self k L2)
    have hnm2 : ¬ id ∈ L2 := fun h => hnm (List.mem_cons_of_mem _ h)
    simp only [List.foldl_cons]
    obtain ⟨h1, h2⟩ := ih (reap_redis_key st now k) id hnm2
    rw [h1, h2, reap_redis_key_other_redis st now hk, reap_redis_key_other_mem st now hk]
    exact ⟨rfl, rfl⟩

theorem foldReap_mem_live (now : Nat) (L : List String) :
    ∀ (st : Store) (id : String) (sd : SessionData) (ne : Nat),
      L.Nodup → id ∈ L → st.redis_available = true →
      alookup st.redis id = some (sd, ne) → ¬ ne ≤ now →
      ((sd.expires_at + REAP_GRACE < now →
          alookup ((L.foldl (fun acc key => reap_redis_key acc now key) st)).redis id = none ∧
          alookup ((L.foldl (fun acc key => reap_redis_key acc now key) st)).memory_storage id =
            none) ∧
        (¬ sd.expires_at + REAP_GRACE < now →
          alookup ((L.foldl (fun acc key => reap_redis_key acc now key) st)).redis id =
              some (sd, ne) ∧
            alookup ((L.foldl (fun acc key => reap_redis_key acc now key) st)).memory_storage id =
              alookup st.memory_storage id)) := by
  induction L with
  | nil => intro st id sd ne _ hm; simp at hm
  | cons k L2 ih =>
    intro st id sd ne hnd hm hr hl hn
    simp only [List.nodup_cons] at hnd
    simp only [List.foldl_cons]
    by_cases hk : k = id
    · subst hk
      have hnm2 : ¬ k ∈ L2 := hnd.1
      constructor
      · intro hc
        rw [reap_redis_key_del hl hn hc]
        obtain ⟨h1, h2⟩ := foldReap_not_mem now L2 (delete_session st now k) k hnm2
        rw [h1, h2, delete_session_mem_self]
        refine ⟨?_, rfl⟩
        rw [delete_session_redis_self, hr]
        simp
      · intro hc
        rw [reap_redis_key_keep hl hn hc]
        obtain ⟨h1, h2⟩ := foldReap_not_mem now L2 st k hnm2
        rw [h1, h2, hl]
        exact ⟨rfl, rfl⟩
    · have hm2 : id ∈ L2 := by
        rcases List.mem_cons.mp hm with h | h
        · exact absurd h.symm hk
        · exact h
      have hk2 : ¬ k = id := hk
      have hr2 : (reap_redis_key st now k).redis_available = true := by
        rw [reap_redis_key_avail]; exact hr
      have hl2 : alookup (reap_redis_key st now k).redis id = some (sd, ne) := by
        rw [reap_redis_key_other_redis st now hk2]; exact hl
      obtain ⟨ha, hb⟩ := ih (reap_redis_key st now k) id sd ne hnd.2 hm2 hr2 hl2 hn
      constructor
      · intro hc
        exact ha hc
      · intro hc
        obtain ⟨h1, h2⟩ := hb hc
        rw [h1, h2, reap_redis_key_other_mem st now hk2]
        exact ⟨rfl, rfl⟩

theorem foldDel_not_mem (now : Nat) (L : List String) :
    ∀ (st : Store) (id : String), ¬ id ∈ L →
      alookup ((L.foldl (fun acc key => delete_session acc now key) st)).memory_storage id =
        alookup st.memory_storage id := by
  induction L with
  | nil => intro st id _; rfl
  | cons k L2 ih =>
    intro st id hnm
    have hk : ¬ k = id := fun h => hnm (h ▸ List.mem_cons_self k L2)
    have hnm2 : ¬ id ∈ L2 := fun h => hnm (List.mem_cons_of_mem _ h)
    simp only [List.foldl_cons]
    rw [ih (delete_session st now k) id hnm2, delete_session_mem_ne _ _ hk]

theorem foldDel_mem (now : Nat) (L : List String) :
    ∀ (st : Store) (id : String), id ∈ L →
      alookup ((L.foldl (fun acc key => delete_session acc now key) st)).memory_storage id =
        none := by
  induction L with
  | nil => intro st id hm; simp at hm
  | cons k L2 ih =>
    intro st id hm
    simp only [List.foldl_cons]
    by_cases hm2 : id ∈ L2
    · exact ih (delete_session st now k) id hm2
    · have hk : k = id := by
        rcases List.mem_cons.mp hm with h | h
        · exact h.symm
        · exact absurd h hm2
      subst hk
      rw [foldDel_not_mem now L2 (delete_session st now k) k hm2,
        delete_session_mem_self]

theorem foldDel_avail (now : Nat) (L : List String) :
    ∀ st : Store,
      ((L.foldl (fun acc key => delete_session acc now key) st)).redis_available =
        st.redis_available := by
  induction L with
  | nil => intro st; rfl
  | cons k L2 ih =>
    intro st
    simp only [List.foldl_cons]
    rw [ih (delete_session st now k), delete_session_avail]

/-! Further support lemmas. -/

theorem get_none_snd_of_mem_none {st : Store} {now : Nat} {id : String}
    (hm : alookup st.memory_storage id = none) : (get_session st now id).2 = st := by
  by_cases hr : st.redis_available
  · cases hl : alookup st.redis id with
    | some pr =>
      obtain ⟨sd1, ne⟩ := pr
      by_cases hn : ne ≤ now
      · rw [get_session_redis_dead hr hl hn, get_mem_of_none hm]
      · by_cases hg : sd1.expires_at + READ_GRACE < now
        · rw [get_session_redis_grace_fail hr hl hn hg]
        · rw [get_session_redis_hit hr hl hn hg]
    | none => rw [get_session_redis_miss hr hl, get_mem_of_none hm]
  · rw [get_session_no_redis (by simpa using hr), get_mem_of_none hm]

theorem get_none_again {st : Store} {now : Nat} {id : String}
    (h : (get_session st now id).1 = none) :
    (get_session (get_session st now id).2 now id).1 = none := by
  by_cases hr : st.redis_available
  · cases hl : alookup st.redis id with
    | some pr =>
      obtain ⟨sd1, ne⟩ := pr
      by_cases hn : ne ≤ now
      · rw [get_session_redis_dead hr hl hn] at h ⊢
        cases hm : alookup st.memory_storage id with
        | none =>
          rw [get_mem_of_none hm]
          show (get_session st now id).1 = none
          rw [get_session_redis_dead hr hl hn, get_mem_of_none hm]
        | some sd =>
          by_cases hg : sd.expires_at + READ_GRACE < now
          · rw [get_mem_of_expired hm hg]
            show (get_session
                ({ st with memory_storage := adel st.memory_storage id }) now id).1 = none
            have hr2 : ({ st with memory_storage := adel st.memory_storage id } :
                Store).redis_available = true := hr
            have hl2 : alookup ({ st with memory_storage := adel st.memory_storage id } :
                Store).redis id = some (sd1, ne) := hl
            rw [get_session_redis_dead hr2 hl2 hn,
              get_mem_of_none (alookup_adel_self _ _)]
          · rw [get_mem_of_live hm hg] at h
            simp at h
      · by_cases hg : sd1.expires_at + READ_GRACE < now
        · rw [get_session_redis_grace_fail hr hl hn hg]
          show (get_session st now id).1 = none
          rw [get_session_redis_grace_fail hr hl hn hg]
        · rw [get_session_redis_hit hr hl hn hg] at h
          simp at h
    | none =>
      rw [get_session_redis_miss hr hl] at h ⊢
      cases hm : alookup st.memory_storage id with
      | none =>
        rw [get_mem_of_none hm]
        show (get_session st now id).1 = none
        rw [get_session_redis_miss hr hl, get_mem_of_none hm]
      | some sd =>
        by_cases hg : sd.expires_at + READ_GRACE < now
        · rw [get_mem_of_expired hm hg]
          show (get_session
              ({ st with memory_storage := adel st.memory_storage id }) now id).1 = none
          have hr2 : ({ st with memory_storage := adel st.memory_storage id } :
              Store).redis_available = true := hr
          have hl2 : alookup ({ st with memory_storage := adel st.memory_storage id } :
              Store).redis id = none := hl
          rw [get_session_redis_miss hr2 hl2, get_mem_of_none (alookup_adel_self _ _)]
        · rw [get_mem_of_live hm hg] at h
          simp at h
  · have hrf : st.redis_available = false := by simpa using hr
    rw [get_session_no_redis hrf] at h ⊢
    cases hm : alookup st.memory_storage id with
    | none =>
      rw [get_mem_of_none hm]
      show (get_session st now id).1 = none
      rw [get_session_no_redis hrf, get_mem_of_none hm]
    | some sd =>
      by_cases hg : sd.expires_at + READ_GRACE < now
      · rw [get_mem_of_expired hm hg]
        show (get_session
            ({ st with memory_storage := adel st.memory_storage id }) now id).1 = none
        have hrf2 : ({ st with memory_storage := adel st.memory_storage id } :
            Store).redis_available = false := hrf
        rw [get_session_no_redis hrf2, get_mem_of_none (alookup_adel_self _ _)]
      · rw [get_mem_of_live hm hg] at h
        simp at h

theorem send_to_session_snd {C : Type} (sendOk : C → Bool) (m : ConnectionManager C)
    (message : Val) (id : String) :
    (ConnectionManager.send_to_session sendOk m message id).2 = m := by
  cases hl : alookup m.active_connections id <;>
    simp [ConnectionManager.send_to_session, hl]

theorem send_to_session_of_some {C : Type} {sendOk : C → Bool} {m : ConnectionManager C}
    {message : Val} {id : String} {conns : List C}
    (h : alookup m.active_connections id = some conns) :
    ConnectionManager.send_to_session sendOk m message id =
      (conns.map (fun c => (c, sendOk c)), m) := by
  simp [ConnectionManager.send_to_session, h]

theorem send_to_session_of_none {C : Type} {sendOk : C → Bool} {m : ConnectionManager C}
    {message : Val} {id : String}
    (h : alookup m.active_connections id = none) :
    ConnectionManager.send_to_session sendOk m message id = ([], m) := by
  simp [ConnectionManager.send_to_session, h]

theorem decodePoll_inv {d : List (String × Val)} {p : PollData}
    (h : decodePoll d = some p) :
    alookup d "questions" = some (Val.list p.questions) ∧
      alookup d "min_responses" = some (Val.nat p.min_responses) ∧
      alookup d "responses" = some (Val.list p.responses) ∧
      alookup d "results_shown" = some (Val.bool p.results_shown) := by
  unfold decodePoll at h
  split at h
  · rename_i qs m rs b hq hmr hrs hsh
    injection h with h
    subst h
    exact ⟨hq, hmr, hrs, hsh⟩
  · exact absurd h (by simp)

/-! Claim theorems. -/

/-- C1: deletion is not total.  `delete_session` always removes the
record from `memory_storage` (and from redis when available), but it
never removes the per-session upload directory: the code re-reads the
session only after having deleted it, so the file-cleanup branch is
dead.  At the concrete failing input (photo-share session `f` with an
existing directory) the directory survives while the record is gone. -/
theorem delete_session_removes_record_never_side_storage :
    (∀ (st : Store) (now : Nat) (id : String),
        (delete_session st now id).tmp_dirs = st.tmp_dirs ∧
          alookup (delete_session st now id).memory_storage id = none ∧
          alookup (delete_session st now id).redis id =
            (if st.redis_available then none else alookup st.redis id)) ∧
      sdC1.type = SessionType.PHOTO_SHARE ∧
      (delete_session stC1 50 "f").tmp_dirs = ["f"] ∧
      alookup (delete_session stC1 50 "f").memory_storage "f" = none := by
  refine ⟨fun st now id =>
    ⟨delete_session_tmp_dirs st now id, delete_session_mem_self st now id,
      delete_session_redis_self st now id⟩, rfl, ?_, ?_⟩
  · rw [delete_session_tmp_dirs]
    rfl
  · exact delete_session_mem_self stC1 50 "f"

/-- C2 counterexample: the claimed iff fails on the redis path.  A
session created while redis is available is stored via `setex` with a
native TTL of exactly `SESSION_TTL` seconds, so redis evicts the key at
`expires_at` itself; at time 1250, inside the claimed visibility window
(`1250 <= expires_at + 120 = 1320`) but past `expires_at = 1200`,
`get_session` returns absent (there is no `memory_storage` copy to fall
through to), although the claim says the record is returned. -/
theorem get_session_absent_within_grace_on_redis :
    alookup stC2.redis "r" =
        some ({ type := SessionType.CHAT_ROOM, created_at := 0,
                expires_at := SESSION_TTL, data := [] }, SESSION_TTL) ∧
      (1250 : Nat) ≤ SESSION_TTL + READ_GRACE ∧
      SESSION_TTL < 1250 ∧
      (get_session stC2 1250 "r").1 = none :=
  ⟨rfl, by decide, by decide, rfl⟩

/-- C2 amended: `get_session` returns a record exactly when that record
is what the backends currently hold for the id at the query time —
redis first, honoring the native TTL (which `create_session` sets to
exactly `SESSION_TTL`, so a never-updated redis record is already gone
at `expires_at`), with fall-through to `memory_storage` — and the
current time is at most `expires_at` plus the 2-minute read grace
period; otherwise it returns absent (not an error), also for unknown
ids. -/
theorem get_session_visibility_iff_within_grace (st : Store) (now : Nat)
    (id : String) (sd : SessionData) :
    (get_session st now id).1 = some sd ↔
      storedAt st now id = some sd ∧ now ≤ sd.expires_at + READ_GRACE :=
  get_session_fst_iff

/-- C4: for a visible record, `update_session` followed by
`get_session` yields the record with the field-wise merged payload
while `type`, `created_at` and `expires_at` are unchanged; in
particular `expires_at` is re-persisted with the same value. -/
theorem update_then_get_merged_payload (st : Store) (now : Nat) (id : String)
    (d : List (String × Val)) (sd : SessionData)
    (h : (get_session st now id).1 = some sd) :
    (get_session (update_session st now id d) now id).1 =
      some { type := sd.type, created_at := sd.created_at,
             expires_at := sd.expires_at, data := dictUpdate sd.data d } :=
  update_session_some h

/-- Witness for C4 at a concrete chat-room store. -/
theorem update_then_get_merged_payload_witness :
    (get_session stC4 10 "s").1 = some sdC4 ∧
      (get_session (update_session stC4 10 "s" [("name", Val.str "X")]) 10 "s").1 =
        some { type := sdC4.type, created_at := sdC4.created_at,
               expires_at := sdC4.expires_at,
               data := dictUpdate sdC4.data [("name", Val.str "X")] } :=
  ⟨rfl, update_then_get_merged_payload stC4 10 "s" [("name", Val.str "X")] sdC4 rfl⟩

/-- C5 counterexample: `update_session` on an id that is absent (here:
expired past the read grace period) is not a pure no-op — the embedded
`get_session` deletes the expired entry from `memory_storage`. -/
theorem update_absent_mutates_memory_storage :
    (get_session stC5 1300 "s").1 = none ∧
      alookup stC5.memory_storage "s" = some sdC5 ∧
      alookup (update_session stC5 1300 "s" []).memory_storage "s" = none :=
  ⟨rfl, rfl, rfl⟩

/-- C5 amended: `update_session` on an absent id writes no record: it
performs exactly the embedded read (whose only possible state change is
evicting an already-expired `memory_storage` entry), a subsequent
`get_session` still returns absent, and for an id absent from
`memory_storage` the store is fully unchanged. -/
theorem update_session_absent_writes_nothing (st : Store) (now : Nat) (id : String)
    (d : List (String × Val)) (h : (get_session st now id).1 = none) :
    update_session st now id d = (get_session st now id).2 ∧
      (get_session (update_session st now id d) now id).1 = none ∧
      (alookup st.memory_storage id = none → update_session st now id d = st) := by
  refine ⟨update_session_none h, ?_, ?_⟩
  · rw [update_session_none h]
    exact get_none_again h
  · intro hm
    rw [update_session_none h, get_none_snd_of_mem_none hm]

/-- Witness for the amended C5 at an unknown id. -/
theorem update_session_absent_writes_nothing_witness :
    (get_session stC5 1300 "z").1 = none ∧
      (update_session stC5 1300 "z" [] = (get_session stC5 1300 "z").2 ∧
        (get_session (update_session stC5 1300 "z" []) 1300 "z").1 = none ∧
        (alookup stC5.memory_storage "z" = none → update_session stC5 1300 "z" [] = stC5)) :=
  ⟨rfl, update_session_absent_writes_nothing stC5 1300 "z" [] rfl⟩

/-- C7 counterexample: the in-memory `get_session` path does not just
filter — it deletes the truly-expired entry from `memory_storage`. -/
theorem get_session_evicts_expired_memory_entry :
    (get_session stC7 300 "w").1 = none ∧
      alookup stC7.memory_storage "w" = some sdC7 ∧
      alookup ((get_session stC7 300 "w").2).memory_storage "w" = none :=
  ⟨rfl, rfl, rfl⟩

/-- C7 amended: with redis unavailable, `get_session` on an in-memory
entry past `expires_at` plus the read grace period returns absent and
eagerly deletes the entry from `memory_storage`; on an entry within the
grace period it returns the record and leaves the store unchanged. -/
theorem get_memory_filters_and_evicts (st : Store) (now : Nat) (id : String)
    (sd : SessionData) (hr : st.redis_available = false)
    (hm : alookup st.memory_storage id = some sd) :
    (sd.expires_at + READ_GRACE < now →
        get_session st now id =
          (none, { st with memory_storage := adel st.memory_storage id })) ∧
      (¬ sd.expires_at + READ_GRACE < now →
        get_session st now id = (some sd, st)) := by
  constructor
  · intro hg
    rw [get_session_no_redis hr, get_mem_of_expired hm hg]
  · intro hg
    rw [get_session_no_redis hr, get_mem_of_live hm hg]

/-- Witness for the amended C7. -/
theorem get_memory_filters_and_evicts_witness :
    (sdC7.expires_at + READ_GRACE < 300 →
        get_session stC7 300 "w" =
          (none, { stC7 with memory_storage := adel stC7.memory_storage "w" })) ∧
      (¬ sdC7.expires_at + READ_GRACE < 300 →
        get_session stC7 300 "w" = (some sdC7, stC7)) :=
  get_memory_filters_and_evicts stC7 300 "w" sdC7 rfl rfl

/-- C8: `create_session` followed by an immediate `get_session` of the
new id returns a record with the given kind and payload, and
`expires_at - created_at` is exactly the configured TTL of 20
minutes. -/
theorem create_then_get_exact_ttl (st : Store) (now : Nat) (id ktype : String)
    (d : List (String × Val)) :
    (get_session (create_session st now id ktype d) now id).1 =
        some { type := ktype, created_at := now, expires_at := now + SESSION_TTL,
               data := d } ∧
      (now + SESSION_TTL) - now = SESSION_TTL ∧
      SESSION_TTL = 20 * 60 := by
  refine ⟨?_, by omega, rfl⟩
  have httl : ¬ now + SESSION_TTL ≤ now := by simp [SESSION_TTL]
  have hg : ¬ (now + SESSION_TTL + READ_GRACE < now) := by omega
  by_cases hr : st.redis_available
  · have hc : create_session st now id ktype d =
        { st with
          redis := aset st.redis id
            ({ type := ktype, created_at := now, expires_at := now + SESSION_TTL,
               data := d }, now + SESSION_TTL) } := by
      simp [create_session, hr]
    rw [hc]
    exact get_session_fst_of_hit hr (alookup_aset_self _ _ _) httl hg
  · have hrf : st.redis_available = false := by simpa using hr
    have hc : create_session st now id ktype d =
        { st with
          memory_storage := aset st.memory_storage id
            { type := ktype, created_at := now, expires_at := now + SESSION_TTL,
              data := d } } := by
      simp [create_session, hrf]
    rw [hc]
    exact get_session_fst_of_mem hrf (alookup_aset_self _ _ _) hg

/-- C3 counterexample: a failed delivery does not remove the connection
from the set.  With connections 1 and 2 registered and delivery to 1
failing, `send_to_session` attempts both in order but leaves the
manager — including connection 1 — fully unchanged. -/
theorem send_failure_connection_not_removed :
    sendOkC3 1 = false ∧
      (ConnectionManager.send_to_session sendOkC3 mgrC3 (Val.str "m") "s").1 =
        [(1, false), (2, true)] ∧
      (ConnectionManager.send_to_session sendOkC3 mgrC3 (Val.str "m") "s").2 = mgrC3 ∧
      alookup ((ConnectionManager.send_to_session sendOkC3 mgrC3
          (Val.str "m") "s").2).active_connections "s" = some [1, 2] :=
  ⟨rfl, rfl, rfl, rfl⟩

/-- C3 amended: `send_to_session` makes exactly one delivery attempt to
each registered connection in order; a failure is caught by the bare
`except: pass` and does not prevent the remaining attempts, but the
failed connection stays in the set — the manager is unchanged. -/
theorem send_to_session_attempts_each_once {C : Type} (sendOk : C → Bool)
    (m : ConnectionManager C) (message : Val) (id : String) (conns : List C)
    (h : alookup m.active_connections id = some conns) :
    ConnectionManager.send_to_session sendOk m message id =
      (conns.map (fun c => (c, sendOk c)), m) :=
  send_to_session_of_some h

/-- Witness for the amended C3. -/
theorem send_to_session_attempts_each_once_witness :
    alookup mgrC3.active_connections "s" = some [1, 2] ∧
      ConnectionManager.send_to_session sendOkC3 mgrC3 (Val.str "m") "s" =
        ([1, 2].map (fun c => (c, sendOkC3 c)), mgrC3) :=
  ⟨rfl, send_to_session_attempts_each_once sendOkC3 mgrC3 (Val.str "m") "s" [1, 2] rfl⟩

/-- C9: the no-empty-sets invariant of the connection manager is
preserved by `connect`, `disconnect` and `send_to_session` (so an id
present in `active_connections` always maps to a non-empty list, and
`disconnect` frees the entry when the last connection leaves), and a
broadcast to an id with no entry is a no-op delivering nothing. -/
theorem connection_manager_no_empty_sets_preserved {C : Type} [DecidableEq C]
    (m : ConnectionManager C) (h : m.no_empty_sets) :
    (∀ (ws : C) (id : String), (m.connect ws id).no_empty_sets) ∧
      (∀ (ws : C) (id : String), (m.disconnect ws id).no_empty_sets) ∧
      (∀ (sendOk : C → Bool) (message : Val) (id : String),
        ((ConnectionManager.send_to_session sendOk m message id).2).no_empty_sets) ∧
      (∀ (sendOk : C → Bool) (message : Val) (id : String),
        alookup m.active_connections id = none →
          ConnectionManager.send_to_session sendOk m message id = ([], m)) := by
  refine ⟨?_, ?_, ?_, ?_⟩
  · intro ws id id2 conns2 h2
    simp only [ConnectionManager.connect] at h2
    by_cases hid : id = id2
    · subst hid
      rw [alookup_aset_self] at h2
      injection h2 with h2
      subst h2
      simp
    · rw [alookup_aset_ne _ _ _ _ hid] at h2
      exact h id2 conns2 h2
  · intro ws id id2 conns2 h2
    simp only [ConnectionManager.disconnect] at h2
    cases hl : alookup m.active_connections id with
    | none =>
      rw [hl] at h2
      exact h id2 conns2 h2
    | some conns =>
      rw [hl] at h2
      by_cases hin : ws ∈ conns
      · simp only [hin, if_true] at h2
        by_cases hemp : removeFirst conns ws = []
        · simp only [hemp, if_true] at h2
          by_cases hid : id = id2
          · subst hid
            rw [alookup_adel_self] at h2
            cases h2
          · rw [alookup_adel_ne _ _ _ hid] at h2
            exact h id2 conns2 h2
        · simp only [hemp, if_false] at h2
          by_cases hid : id = id2
          · subst hid
            rw [alookup_aset_self] at h2
            injection h2 with h2
            subst h2
            exact hemp
          · rw [alookup_aset_ne _ _ _ _ hid] at h2
            exact h id2 conns2 h2
      · simp only [hin, if_false] at h2
        exact h id2 conns2 h2
  · intro sendOk message id
    rw [send_to_session_snd]
    exact h
  · intro sendOk message id hl
    exact send_to_session_of_none hl

/-- Witness for C9 at a concrete one-connection manager. -/
theorem connection_manager_no_empty_sets_witness :
    (mgrC9.connect 2 "s").no_empty_sets ∧
      (mgrC9.disconnect 1 "s").no_empty_sets ∧
      ConnectionManager.send_to_session (fun _ => true) mgrC9 (Val.str "m") "t" =
        ([], mgrC9) := by
  have hinv : mgrC9.no_empty_sets := by
    intro id conns h
    by_cases hid : ("s" : String) = id
    · rw [← hid] at h
      have h2 : alookup mgrC9.active_connections "s" = some [1] := rfl
      rw [h2] at h
      injection h with h
      subst h
      simp
    · have h2 : alookup mgrC9.active_connections id = none := by
        simp [mgrC9, alookup, hid]
      rw [h2] at h
      cases h
  obtain ⟨h1, h2, _, h4⟩ := connection_manager_no_empty_sets_preserved mgrC9 hinv
  exact ⟨h1 2 "s", h2 1 "s", h4 (fun _ => true) (Val.str "m") "t" rfl⟩

/-- C6 counterexample: with redis available, a reap cycle enumerates
only redis keys.  A record living only in `memory_storage` and expired
past the reap grace period is not deleted by the cycle. -/
theorem cleanup_cycle_skips_memory_record_when_redis_active :
    sdC6.expires_at + REAP_GRACE < 1000 ∧
      alookup stC6.memory_storage "s" = some sdC6 ∧
      alookup (cleanup_cycle stC6 1000).memory_storage "s" = some sdC6 :=
  ⟨by decide, rfl, rfl⟩

/-- C6 amended: a reap cycle deletes exactly the records it enumerates
from the active backend whose `expires_at` is more than the 5-minute
reap grace period in the past.  With redis unavailable this is the
claimed iff on `memory_storage` (and a reaped record is absent from a
subsequent `get_session`); with redis available it is the claimed iff
for records held (natively live) in redis, whose `memory_storage` copy
is removed as well when reaped — but a record present only in
`memory_storage` is left untouched regardless of its expiry. -/
theorem cleanup_cycle_reap_characterization (st : Store) (now : Nat) (id : String)
    (sd : SessionData) (ne : Nat)
    (hmem : (st.memory_storage.map (fun e => e.1)).Nodup)
    (hred : (st.redis.map (fun e => e.1)).Nodup) :
    (st.redis_available = false → alookup st.memory_storage id = some sd →
        alookup (cleanup_cycle st now).memory_storage id =
            (if sd.expires_at + REAP_GRACE < now then none else some sd) ∧
          (sd.expires_at + REAP_GRACE < now →
            (get_session (cleanup_cycle st now) now id).1 = none)) ∧
      (st.redis_available = true → alookup st.redis id = some (sd, ne) → ¬ ne ≤ now →
        alookup (cleanup_cycle st now).redis id =
            (if sd.expires_at + REAP_GRACE < now then none else some (sd, ne)) ∧
          (sd.expires_at + REAP_GRACE < now →
            alookup (cleanup_cycle st now).memory_storage id = none)) ∧
      (st.redis_available = true → alookup st.redis id = none →
        alookup (cleanup_cycle st now).memory_storage id =
          alookup st.memory_storage id) := by
  refine ⟨?_, ?_, ?_⟩
  · intro hrf hm
    have hcl : cleanup_cycle st now =
        ((st.memory_storage.filter
            (fun e => e.2.expires_at + REAP_GRACE < now)).map (fun e => e.1)).foldl
          (fun acc key => delete_session acc now key) st := by
      simp [cleanup_cycle, hrf]
    by_cases hc : sd.expires_at + REAP_GRACE < now
    · have hin : id ∈ (st.memory_storage.filter
          (fun e => e.2.expires_at + REAP_GRACE < now)).map (fun e => e.1) :=
        List.mem_map.mpr ⟨(id, sd),
          List.mem_filter.mpr ⟨mem_of_alookup hm, by simpa using hc⟩, rfl⟩
      have hdel : alookup (cleanup_cycle st now).memory_storage id = none := by
        rw [hcl]
        exact foldDel_mem now _ st id hin
      refine ⟨?_, fun _ => ?_⟩
      · rw [if_pos hc, hdel]
      · have havail : (cleanup_cycle st now).redis_available = false := by
          rw [hcl, foldDel_avail]
          exact hrf
        rw [get_session_no_redis havail, get_mem_of_none hdel]
    · have hnin : ¬ id ∈ (st.memory_storage.filter
          (fun e => e.2.expires_at + REAP_GRACE < now)).map (fun e => e.1) := by
        intro hin
        obtain ⟨e, he, heq⟩ := List.mem_map.mp hin
        obtain ⟨hel, hep⟩ := List.mem_filter.mp he
        obtain ⟨k1, sd1⟩ := e
        subst heq
        have hlk : alookup st.memory_storage k1 = some sd1 :=
          alookup_of_mem_nodup hmem hel
        rw [hm] at hlk
        injection hlk with hlk
        subst hlk
        exact hc (by simpa using hep)
      refine ⟨?_, fun hc2 => absurd hc2 hc⟩
      rw [if_neg hc, hcl, foldDel_not_mem now _ st id hnin, hm]
  · intro hrt hl hn
    have hcl : cleanup_cycle st now =
        ((st.redis.filter (fun e => now < e.2.2)).map (fun e => e.1)).foldl
          (fun acc key => reap_redis_key acc now key) st := by
      simp [cleanup_cycle, hrt]
    have hin : id ∈ (st.redis.filter (fun e => now < e.2.2)).map (fun e => e.1) :=
      List.mem_map.mpr ⟨(id, (sd, ne)),
        List.mem_filter.mpr ⟨mem_of_alookup hl, by simpa using Nat.lt_of_not_le hn⟩, rfl⟩
    have hnd : ((st.redis.filter (fun e => now < e.2.2)).map (fun e => e.1)).Nodup :=
      List.Nodup.sublist ((List.filter_sublist _).map _) hred
    obtain ⟨ha, hb⟩ :=
      foldReap_mem_live now _ st id sd ne hnd hin hrt hl hn
    by_cases hc : sd.expires_at + REAP_GRACE < now
    · refine ⟨?_, fun _ => ?_⟩
      · rw [if_pos hc, hcl]
        exact (ha hc).1
      · rw [hcl]
        exact (ha hc).2
    · refine ⟨?_, fun hc2 => absurd hc2 hc⟩
      rw [if_neg hc, hcl]
      exact (hb hc).1
  · intro hrt hl
    have hcl : cleanup_cycle st now =
        ((st.redis.filter (fun e => now < e.2.2)).map (fun e => e.1)).foldl
          (fun acc key => reap_redis_key acc now key) st := by
      simp [cleanup_cycle, hrt]
    have hnin : ¬ id ∈ (st.redis.filter (fun e => now < e.2.2)).map (fun e => e.1) := by
      intro hin
      obtain ⟨e, he, heq⟩ := List.mem_map.mp hin
      have hmm : id ∈ st.redis.map (fun e => e.1) :=
        List.mem_map.mpr ⟨e, (List.mem_filter.mp he).1, heq⟩
      rw [alookup_eq_none_iff] at hl
      exact hl hmm
    rw [hcl]
    exact (foldReap_not_mem now _ st id hnin).2

/-- Witness for the amended C6 at a reapable in-memory record. -/
theorem cleanup_cycle_reap_witness :
    stC6w.redis_available = false ∧
      alookup stC6w.memory_storage "a" = some sdC6a ∧
      sdC6a.expires_at + REAP_GRACE < 1000 ∧
      alookup (cleanup_cycle stC6w 1000).memory_storage "a" =
        (if sdC6a.expires_at + REAP_GRACE < 1000 then none else some sdC6a) ∧
      (get_session (cleanup_cycle stC6w 1000) 1000 "a").1 = none := by
  have h := (cleanup_cycle_reap_characterization stC6w 1000 "a" sdC6a 0
    (by decide) (by decide)).1 rfl rfl
  exact ⟨rfl, rfl, by decide, h.1, h.2 (by decide)⟩

/-- C10: for a quick-poll session, submitting fails with HTTP 400 and
leaves the store unchanged when results are already shown or when the
answer count differs from the question count; a successful submit
appends the response entry and persists
`results_shown = (count >= min_responses)` computed over the new total,
so the stored flag is true exactly when the total response count
reaches `min_responses`; and the results endpoint fails with HTTP 400
while `results_shown` is false. -/
theorem quick_poll_submit_results_behavior (st : Store) (now : Nat) (rid id : String)
    (responses : List String) (sd : SessionData) (p : PollData)
    (h1 : (get_session st now id).1 = some sd)
    (h2 : sd.type = SessionType.QUICK_POLL)
    (h3 : decodePoll sd.data = some p) :
    (p.results_shown = true →
        submit_poll_response st now rid id responses =
          (Except.error (400, "Poll results have already been shown"), st)) ∧
      (p.results_shown = false → ¬ responses.length = p.questions.length →
        submit_poll_response st now rid id responses =
          (Except.error (400, "Number of responses must match number of questions"), st)) ∧
      (p.results_shown = false → responses.length = p.questions.length →
        submit_poll_response st now rid id responses =
            (Except.ok ((p.responses ++ [pollEntry rid responses now]).length,
              decide (p.min_responses ≤ (p.responses ++ [pollEntry rid responses now]).length),
              p.min_responses),
              update_session st now id (pollAfter p rid responses now)) ∧
          decodePoll (dictUpdate sd.data (pollAfter p rid responses now)) =
            some { questions := p.questions, min_responses := p.min_responses,
                   responses := p.responses ++ [pollEntry rid responses now],
                   results_shown :=
                     decide (p.min_responses ≤
                       (p.responses ++ [pollEntry rid responses now]).length) } ∧
          (get_session (update_session st now id (pollAfter p rid responses now)) now id).1 =
            some { type := sd.type, created_at := sd.created_at,
                   expires_at := sd.expires_at,
                   data := dictUpdate sd.data (pollAfter p rid responses now) } ∧
          (p.responses ++ [pollEntry rid responses now]).length = p.responses.length + 1 ∧
          (decide (p.min_responses ≤ (p.responses ++ [pollEntry rid responses now]).length) =
              true ↔ p.min_responses ≤ p.responses.length + 1)) ∧
      (p.results_shown = false →
        get_poll_results st now id = (Except.error (400, "Results not yet available"), st)) := by
  have hst : (get_session st now id).2 = st := get_session_some_state h1
  have hpair : get_session st now id = (some sd, st) := Prod.ext h1 hst
  refine ⟨?_, ?_, ?_, ?_⟩
  · intro hs
    simp [submit_poll_response, hpair, h2, h3, hs]
  · intro hs hlen
    simp [submit_poll_response, hpair, h2, h3, hs, hlen]
  · intro hs hlen
    refine ⟨?_, ?_, ?_, by simp, by simp⟩
    · simp [submit_poll_response, hpair, h2, h3, hs, hlen, pollAfter]
    · obtain ⟨hq, hmr, hrs, hsh⟩ := decodePoll_inv h3
      have e1 : alookup (dictUpdate sd.data (pollAfter p rid responses now))
          "questions" = some (Val.list p.questions) := by
        show alookup (aset (aset sd.data "responses"
          (Val.list (p.responses ++ [pollEntry rid responses now]))) "results_shown"
          (Val.bool (decide (p.min_responses ≤
            (p.responses ++ [pollEntry rid responses now]).length)))) "questions" = _
        rw [alookup_aset_ne _ _ _ _ (by decide), alookup_aset_ne _ _ _ _ (by decide), hq]
      have e2 : alookup (dictUpdate sd.data (pollAfter p rid responses now))
          "min_responses" = some (Val.nat p.min_responses) := by
        show alookup (aset (aset sd.data "responses"
          (Val.list (p.responses ++ [pollEntry rid responses now]))) "results_shown"
          (Val.bool (decide (p.min_responses ≤
            (p.responses ++ [pollEntry rid responses now]).length)))) "min_responses" = _
        rw [alookup_aset_ne _ _ _ _ (by decide), alookup_aset_ne _ _ _ _ (by decide), hmr]
      have e3 : alookup (dictUpdate sd.data (pollAfter p rid responses now))
          "responses" =
          some (Val.list (p.responses ++ [pollEntry rid responses now])) := by
        show alookup (aset (aset sd.data "responses"
          (Val.list (p.responses ++ [pollEntry rid responses now]))) "results_shown"
          (Val.bool (decide (p.min_responses ≤
            (p.responses ++ [pollEntry rid responses now]).length)))) "responses" = _
        rw [alookup_aset_ne _ _ _ _ (by decide), alookup_aset_self]
      have e4 : alookup (dictUpdate sd.data (pollAfter p rid responses now))
          "results_shown" =
          some (Val.bool (decide (p.min_responses ≤
            (p.responses ++ [pollEntry rid responses now]).length))) := by
        show alookup (aset (aset sd.data "responses"
          (Val.list (p.responses ++ [pollEntry rid responses now]))) "results_shown"
          (Val.bool (decide (p.min_responses ≤
            (p.responses ++ [pollEntry rid responses now]).length)))) "results_shown" = _
        rw [alookup_aset_self]
      simp [decodePoll, e1, e2, e3, e4]
    · exact update_session_some h1
  · intro hs
    simp [get_poll_results, hpair, h2, h3, hs]

/-- Witness for C10 at a concrete one-question poll with
`min_responses = 1`. -/
theorem quick_poll_submit_results_witness :
    submit_poll_response stC10 10 "r1" "p" ["A"] =
        (Except.ok (1, true, 1), update_session stC10 10 "p" (pollAfter pC10 "r1" ["A"] 10)) ∧
      get_poll_results stC10 10 "p" =
        (Except.error (400, "Results not yet available"), stC10) := by
  have h := quick_poll_submit_results_behavior stC10 10 "r1" "p" ["A"] sdC10 pC10 rfl rfl rfl
  exact ⟨(h.2.2.1 rfl rfl).1, h.2.2.2 rfl⟩
